import Mathlib

/-!
Verification of the client-side offline synchronization and
authentication-state reconciliation subsystem of the Inventory App.

The definitions below are a shallow embedding of the TypeScript sources:

* `src/types`            — data model (Item, ItemWithStatus, QueuedOperation, AuthState, User)
* `src/lib/offline.ts`   — offline queue, items cache, network status
* `src/lib/supabase.ts`  — module-level realtime-availability flag
* `src/hooks/useItems.ts` — item synchronization engine (fetch, realtime
  handler, polling fallback, queue drain, addItem/updateItem/deleteItem)
* `src/hooks/useAuth.tsx` — authentication state machine (bootstrap handler,
  safety timer, admin lookup)

JavaScript strings are `String`, JS numbers holding integer cent amounts are
`Int`, `undefined`/`null` are `Option`, and asynchronous results that may
never arrive are `Option` (with `none` standing for a promise that has not
resolved within the relevant window).
-/

namespace Inventory

/-- The `section` column: `"income" | "expenses"` (src/types). -/
inductive Sect
  | income
  | expenses
deriving DecidableEq

/-- Item row as stored in the database (src/types `Item`). -/
structure Item where
  id : String
  user_id : String
  name : String
  price_cents : Int
  sect : Sect
  sub_section : Option String
  item_date : String
  created_at : String
  updated_at : String
deriving DecidableEq

/-- Optimistic-update status tag (src/types `SyncStatus`). -/
inductive SyncStatus
  | synced
  | pending
  | error
deriving DecidableEq

/-- Item plus sync status and optional local correlation id
(src/types `ItemWithStatus`). -/
structure ItemWithStatus extends Item where
  syncStatus : SyncStatus
  localId : Option String
deriving DecidableEq

/-- Application user (src/types `User`); `isAdmin` defaults to `false` in
`mapUser` and is only raised by the admin lookup. -/
structure User where
  id : String
  email : Option String
  created_at : String
  isAdmin : Bool
deriving DecidableEq

/-! ## Item synchronization engine: addItem optimistic phase
(src/hooks/useItems.ts, `addItem`) -/

/-- The optimistic entry `addItem` builds before any network attempt:
`{ id: localId, user_id, name, price_cents, section, sub_section, item_date,
created_at: now, updated_at: now, syncStatus: 'pending', localId }`. -/
def mkOptimisticItem (u : User) (name : String) (priceCents : Int)
    (sect : Sect) (itemDate : String) (subSection : Option String)
    (localId nowIso : String) : ItemWithStatus :=
  { id := localId
    user_id := u.id
    name := name
    price_cents := priceCents
    sect := sect
    sub_section := subSection
    item_date := itemDate
    created_at := nowIso
    updated_at := nowIso
    syncStatus := SyncStatus.pending
    localId := some localId }

/-- Function `addItem` up to (and including) the synchronous optimistic update
`setItems(prev => [optimisticItem, ...prev])`; the guard `if (!user) return`
is the `Option User` match. Everything after this point in the source is a
network attempt, so this is exactly the list visible before any network
response is observed. -/
def addItemOptimistic (user : Option User) (name : String) (priceCents : Int)
    (sect : Sect) (itemDate : String) (subSection : Option String)
    (localId nowIso : String) (items : List ItemWithStatus) :
    List ItemWithStatus :=
  match user with
  | none => items
  | some u =>
      mkOptimisticItem u name priceCents sect itemDate subSection localId nowIso :: items

/-! ## Item synchronization engine: realtime INSERT handler
(src/hooks/useItems.ts, payload handler) -/

/-- Spread `{ ...newItem, syncStatus: 'synced' }` — it drops any `localId`. -/
def serverSynced (n : Item) : ItemWithStatus :=
  { toItem := n, syncStatus := SyncStatus.synced, localId := none }

/-- The INSERT branch of the realtime payload handler: if an item with the
same identifier already exists (optimistic add), replace it in place with the
server record marked synced; otherwise prepend the server record. -/
def applyRealtimeInsert (n : Item) (prev : List ItemWithStatus) :
    List ItemWithStatus :=
  if prev.any (fun it => it.id == n.id) then
    prev.map (fun it => if it.id == n.id then serverSynced n else it)
  else
    serverSynced n :: prev

/-- Lookup `items.find(item => item.id === i)` — first entry with the given id. -/
def findById (l : List ItemWithStatus) (i : String) : Option ItemWithStatus :=
  l.find? (fun it => it.id == i)

/-! ## Authentication state machine (src/hooks/useAuth.tsx) -/

/-- Maximum ms to wait for any single auth operation before giving up. -/
def AUTH_TIMEOUT_MS : Nat := 5000

/-- Global safety net: if isLoading is still true after this, force it false. -/
def LOADING_SAFETY_TIMEOUT_MS : Nat := 8000

/-- Function `withTimeout(promise, ms, fallback)` races a promise against a timeout and
resolves to `fallback` if time expires. `none` models a promise that has not
resolved within `ms`. -/
def withTimeout {α : Type} (ms : Nat) (result : Option α) (fallback : α) : α :=
  match ms, result with
  | _, some v => v
  | _, none => fallback

/-- Supabase-style error value: `{ code?: string; message?: string }`. -/
structure SupabaseErr where
  code : Option String
  message : Option String
deriving DecidableEq

/-- A row of the `admins` relation as selected by `checkIfAdmin`. -/
structure AdminRow where
  user_id : String
deriving DecidableEq

/-- Outcome of `await supabase.from('admins')...single()`: the promise either
resolves to a `{ data, error }` pair or rejects (throws). -/
inductive AdminQueryOutcome
  | returned (data : Option AdminRow) (error : Option SupabaseErr)
  | thrown (err : SupabaseErr)
deriving DecidableEq

/-- The JS `haystack.includes(needle)`. -/
def strIncludes (haystack needle : String) : Bool :=
  decide (List.IsInfix needle.toList haystack.toList)

/-- Predicate `isMissingAdminsRelation`: code `42P01` or a message mentioning the
missing `public.admins` relation. -/
def isMissingAdminsRelation (e : SupabaseErr) : Bool :=
  e.code == some "42P01"
    || (match e.message with
        | some m => strIncludes m "relation \"public.admins\" does not exist"
        | none => false)

/-- Expression `!!(adminData && !adminError)`. -/
def adminResult (adminData : Option AdminRow)
    (adminError : Option SupabaseErr) : Bool :=
  adminData.isSome && adminError.isNone

/-- Function `checkIfAdmin(userId)`, given the outcome of the admins query. The two
`false` arms of the `thrown` case mirror the catch block's two logging paths
(missing relation vs. any other failure), both of which return `false`. -/
def checkIfAdmin (userId : String) (outcome : AdminQueryOutcome) : Bool :=
  match outcome with
  | .returned adminData adminError =>
      match adminError with
      | some e =>
          if e.code != some "PGRST116" && isMissingAdminsRelation e then false
          else adminResult adminData (some e)
      | none => adminResult adminData none
  | .thrown e =>
      if isMissingAdminsRelation e then false else false

/-- AuthState (src/types). -/
structure AuthState where
  isLoading : Bool
  isAuthenticated : Bool
  user : Option User
  error : Option String
deriving DecidableEq

/-- The provider's initial state. -/
def initialAuthState : AuthState :=
  { isLoading := true, isAuthenticated := false, user := none, error := none }

/-- The state written on sign-out / no-session. -/
def unauthenticatedState : AuthState :=
  { isLoading := false, isAuthenticated := false, user := none, error := none }

/-- Type `Session["user"]`: the fields `mapUser` reads. -/
structure SessionUser where
  id : String
  email : Option String
  created_at : String
deriving DecidableEq

/-- A Supabase session (always carries a user). -/
structure Session where
  user : SessionUser
deriving DecidableEq

/-- Function `mapUser`: project a session user into the app `User`, `isAdmin := false`. -/
def mapUser (authUser : Option SessionUser) : Option User :=
  match authUser with
  | none => none
  | some a => some { id := a.id, email := a.email, created_at := a.created_at,
                     isAdmin := false }

/-- Supabase auth change events distinguished by the handler. -/
inductive AuthChangeEvent
  | tokenRefreshed
  | mfaChallengeVerified
  | signedOut
  | signedIn
  | initialSession
  | userUpdated
  | passwordRecovery
deriving DecidableEq

/-- What one invocation of the `onAuthStateChange` handler does: the state it
leaves behind, whether it called `clearAuthStorage()`, and whether it issued
the admin lookup (the only further network call on these paths). -/
structure HandlerResult where
  state : AuthState
  clearedStorage : Bool
  ranAdminCheck : Bool
deriving DecidableEq

/-- The `onAuthStateChange` callback body. `adminOutcome` is the result of
`checkIfAdmin` as seen through `withTimeout` (`none` = still hanging when the
timeout expired). -/
def onAuthStateChange (ev : AuthChangeEvent) (session : Option Session)
    (adminOutcome : Option Bool) (prev : AuthState) : HandlerResult :=
  if ev == AuthChangeEvent.tokenRefreshed
      || ev == AuthChangeEvent.mfaChallengeVerified then
    { state := prev, clearedStorage := false, ranAdminCheck := false }
  else if ev == AuthChangeEvent.signedOut
      || (ev == AuthChangeEvent.initialSession && session.isNone) then
    { state := unauthenticatedState,
      clearedStorage := ev == AuthChangeEvent.signedOut,
      ranAdminCheck := false }
  else
    match mapUser (session.map Session.user) with
    | some u =>
        let isAdmin := withTimeout AUTH_TIMEOUT_MS adminOutcome false
        let u2 := if isAdmin then { u with isAdmin := true } else u
        { state := { isLoading := false, isAuthenticated := true,
                     user := some u2, error := none },
          clearedStorage := false, ranAdminCheck := true }
    | none =>
        { state := { isLoading := false, isAuthenticated := false,
                     user := none, error := none },
          clearedStorage := false, ranAdminCheck := false }

/-- One observable step of the bootstrap: either the auth subscription fires,
or the global safety timer expires. -/
inductive BootEvent
  | authEvent (ev : AuthChangeEvent) (session : Option Session)
      (adminOutcome : Option Bool)
  | safetyFire
deriving DecidableEq

/-- The safety-timer callback: force `isLoading := false` if still loading. -/
def safetyFireStep (prev : AuthState) : AuthState :=
  if prev.isLoading then { prev with isLoading := false } else prev

def bootStep (st : AuthState) (e : BootEvent) : AuthState :=
  match e with
  | .authEvent ev session adminOutcome =>
      (onAuthStateChange ev session adminOutcome st).state
  | .safetyFire => safetyFireStep st

/-- Run the bootstrap from mount over a sequence of delivered events. -/
def runBoot (tr : List BootEvent) : AuthState :=
  tr.foldl bootStep initialAuthState

/-- The events of a timed trace delivered by wall-clock time `tMs`. -/
def delivered (tMs : Nat) (tr : List (Nat × BootEvent)) : List BootEvent :=
  (tr.filter (fun te => decide (te.1 ≤ tMs))).map (fun te => te.2)

/-! ## Offline mutation queue (src/lib/offline.ts) and queue drain
(src/hooks/useItems.ts, `syncOfflineQueue` / `processOperation`) -/

/-- Operation kind of a queued mutation. -/
inductive OpType
  | insert
  | update
  | delete
deriving DecidableEq

/-- Payload `Partial<Item>` of a queued operation; each field may be absent. -/
structure PartialItem where
  name : Option String
  price_cents : Option Int
  sect : Option Sect
  sub_section : Option (Option String)
  item_date : Option String
deriving DecidableEq

/-- QueuedOperation (src/types). -/
structure QueuedOperation where
  id : String
  type : OpType
  itemId : Option String
  data : Option PartialItem
  timestamp : Int
  retryCount : Nat
deriving DecidableEq

/-- Method `offlineQueue.enqueue`: append with fresh id, current timestamp, zero
retry count. -/
def enqueue (queue : List QueuedOperation) (type : OpType)
    (itemId : Option String) (data : Option PartialItem)
    (freshId : String) (nowMs : Int) : List QueuedOperation :=
  queue ++ [{ id := freshId, type := type, itemId := itemId, data := data,
              timestamp := nowMs, retryCount := 0 }]

/-- Method `offlineQueue.dequeue`: remove by operation identifier. -/
def dequeue (queue : List QueuedOperation) (operationId : String) :
    List QueuedOperation :=
  queue.filter (fun op => op.id != operationId)

/-- Method `offlineQueue.incrementRetry`: bump the retry counter of one operation. -/
def incrementRetry (queue : List QueuedOperation) (operationId : String) :
    List QueuedOperation :=
  queue.map (fun op =>
    if op.id == operationId then { op with retryCount := op.retryCount + 1 }
    else op)

/-- The item/operation correlation used when marking an item `error`:
`item.localId === operation.id || item.id === operation.itemId`. -/
def opMatchesItem (op : QueuedOperation) (it : ItemWithStatus) : Bool :=
  it.localId == some op.id || op.itemId == some it.id

/-- Update `setItems(prev => prev.map(... syncStatus: 'error' ...))` for one failed
operation. -/
def markErrorFor (op : QueuedOperation) (items : List ItemWithStatus) :
    List ItemWithStatus :=
  items.map (fun it =>
    if opMatchesItem op it then { it with syncStatus := SyncStatus.error }
    else it)

/-- The persisted queue plus the in-memory item list, the two pieces of state
the drain mutates. -/
structure SyncState where
  queue : List QueuedOperation
  items : List ItemWithStatus
deriving DecidableEq

/-- One iteration of the drain loop for operation `op` from the snapshot.
`ok op.id` tells whether `processOperation` succeeded for it. On success the
operation is dequeued; on failure its retry counter is incremented and — when
the snapshot's `operation.retryCount` was already ≥ 3 — the corresponding
item is marked `error`. The loop never rethrows, so it continues with the
next operation either way. -/
def drainStep (ok : String → Bool) (st : SyncState) (op : QueuedOperation) :
    SyncState :=
  if ok op.id then { st with queue := dequeue st.queue op.id }
  else
    let q := incrementRetry st.queue op.id
    if 3 ≤ op.retryCount then { queue := q, items := markErrorFor op st.items }
    else { queue := q, items := st.items }

/-- Function `syncOfflineQueue`: guard `if (!user || !networkStatus.isOnline()) return`,
then replay the queue snapshot strictly in order. -/
def syncOfflineQueue (user : Option User) (online : Bool)
    (ok : String → Bool) (st : SyncState) : SyncState :=
  match user, online with
  | some _, true => st.queue.foldl (drainStep ok) st
  | _, _ => st

/-- The row `processOperation` sends for a queued `insert`. -/
structure ItemInsertRow where
  user_id : String
  name : String
  price_cents : Int
  sect : Sect
  sub_section : Option String
  item_date : String
deriving DecidableEq

/-- The JS `x || d` for an optional string field (absent and `''` are falsy). -/
def jsOrString (x : Option String) (d : String) : String :=
  match x with
  | some s => if s = "" then d else s
  | none => d

/-- The JS `x || d` for an optional number field (absent and `0` are falsy). -/
def jsOrInt (x : Option Int) (d : Int) : Int :=
  match x with
  | some n => if n = 0 then d else n
  | none => d

/-- The JS `operation.data?.section || 'income'` (both section literals are
truthy nonempty strings). -/
def jsOrSect (x : Option Sect) : Sect :=
  match x with
  | some s => s
  | none => Sect.income

/-- The JS `operation.data?.sub_section || null` where the field may be absent,
`null`, or a string (empty string is falsy). -/
def jsSubSection (x : Option (Option String)) : Option String :=
  match x with
  | some (some s) => if s = "" then none else some s
  | _ => none

/-- The insert row built by `processOperation` for a queued insert:
`{ user_id, name: data?.name || '', price_cents: data?.price_cents || 0,
section: data?.section || 'income', sub_section: data?.sub_section || null,
item_date: data?.item_date || new Date().toISOString().split('T')[0] }`. -/
def insertRowFromOp (userId todayIso : String) (data : Option PartialItem) :
    ItemInsertRow :=
  { user_id := userId
    name := jsOrString (data.bind (fun d => d.name)) ""
    price_cents := jsOrInt (data.bind (fun d => d.price_cents)) 0
    sect := jsOrSect (data.bind (fun d => d.sect))
    sub_section := jsSubSection (data.bind (fun d => d.sub_section))
    item_date := jsOrString (data.bind (fun d => d.item_date)) todayIso }

/-! ## Item synchronization engine: updateItem
(src/hooks/useItems.ts, `updateItem`) -/

/-- Everything one `updateItem` call leaves behind: the list after the
synchronous optimistic update (visible before any network response), the
final list, the persisted queue, and the surfaced error message. -/
structure UpdateOutcome where
  optimisticItems : List ItemWithStatus
  items : List ItemWithStatus
  queue : List QueuedOperation
  errorMsg : Option String
deriving DecidableEq

/-- Function `updateItem(id, name, priceCents)`: capture the pre-mutation record via
`items.find`, apply the optimistic pending update, then — online — attempt
the remote update (`remoteOk`), marking synced on success and rolling back to
the captured record (and surfacing an error) on failure; offline, enqueue an
update operation instead. `freshOpId`/`nowMs` feed `enqueue` on the offline
path. -/
def updateItemRun (user : Option User) (id name : String) (priceCents : Int)
    (online remoteOk : Bool) (freshOpId : String) (nowMs : Int)
    (items : List ItemWithStatus) (queue : List QueuedOperation)
    (errorMsg : Option String) : UpdateOutcome :=
  match user with
  | none => { optimisticItems := items, items := items, queue := queue,
              errorMsg := errorMsg }
  | some _ =>
      match items.find? (fun it => it.id == id) with
      | none => { optimisticItems := items, items := items, queue := queue,
                  errorMsg := errorMsg }
      | some originalItem =>
          let optimistic := items.map (fun it =>
            if it.id == id then
              { it with
                name := name
                price_cents := priceCents
                syncStatus := SyncStatus.pending }
            else it)
          match online, remoteOk with
          | true, true =>
              { optimisticItems := optimistic
                items := optimistic.map (fun it =>
                  if it.id == id then { it with syncStatus := SyncStatus.synced }
                  else it)
                queue := queue
                errorMsg := errorMsg }
          | true, false =>
              { optimisticItems := optimistic
                items := optimistic.map (fun it =>
                  if it.id == id then originalItem else it)
                queue := queue
                errorMsg := some "Failed to update item." }
          | false, _ =>
              { optimisticItems := optimistic
                items := optimistic
                queue := enqueue queue OpType.update (some id)
                  (some { name := some name, price_cents := some priceCents,
                          sect := none, sub_section := none, item_date := none })
                  freshOpId nowMs
                errorMsg := errorMsg }

/-! ## Realtime subscription with polling fallback
(src/hooks/useItems.ts effect, src/lib/supabase.ts status flag) -/

/-- Poll every 45 seconds for updates. -/
def POLLING_INTERVAL_MS : Nat := 45000

/-- Check after 5 seconds if realtime is working. -/
def REALTIME_CHECK_DELAY_MS : Nat := 5000

/-- The module-level `isRealtimeAvailable` flag plus the polling interval ref
(`none` = no polling interval installed; `some ms` = `setInterval(fetchItems,
ms)` running). -/
structure RealtimeSyncState where
  realtimeAvailable : Bool
  pollingIntervalMs : Option Nat
deriving DecidableEq

/-- Events observed by the subscription effect: the `.subscribe` status
callback firing (with a status or an error argument) and the one-shot
`realtimeCheckTimer` expiring 5 s after subscribing. -/
inductive RealtimeEvent
  | statusSubscribed
  | statusChannelError
  | statusTimedOut
  | subscribeError
  | realtimeCheckFire
deriving DecidableEq

/-- Function `setRealtimeStatus` (src/lib/supabase.ts): the guard only suppresses a
log line; the stored flag always ends up equal to `available`. -/
def setRealtimeStatus (available : Bool) (st : RealtimeSyncState) :
    RealtimeSyncState :=
  { st with realtimeAvailable := available }

/-- One event of the subscription effect. The status callback only updates
the availability flag; only the 5-second check starts polling, and nothing
in the effect ever clears the polling interval before teardown. -/
def realtimeStep (st : RealtimeSyncState) (e : RealtimeEvent) :
    RealtimeSyncState :=
  match e with
  | .subscribeError => setRealtimeStatus false st
  | .statusChannelError => setRealtimeStatus false st
  | .statusTimedOut => setRealtimeStatus false st
  | .statusSubscribed => setRealtimeStatus true st
  | .realtimeCheckFire =>
      if st.realtimeAvailable then st
      else { st with pollingIntervalMs := some POLLING_INTERVAL_MS }

def runRealtime (st : RealtimeSyncState) (evs : List RealtimeEvent) :
    RealtimeSyncState :=
  evs.foldl realtimeStep st

/-- State on first mount: the module-level flag initializes to `true` and no
polling interval exists. -/
def initialRealtimeState : RealtimeSyncState :=
  { realtimeAvailable := true, pollingIntervalMs := none }

/-! ## Connectivity monitor (src/lib/offline.ts, `networkStatus`) -/

/-- Method `networkStatus.isOnline()`: the body is `return navigator.onLine;` — the
OS-reported signal, taken as input. -/
def networkStatus_isOnline (navigatorOnLine : Bool) : Bool :=
  navigatorOnLine

/-- Modelled from the spec (§4.1 Connectivity Monitor), for comparison with
the code: effective online status is the OS signal AND the result of the most
recent active reachability probe. -/
def specEffectiveOnline (osSignal probeOk : Bool) : Bool :=
  osSignal && probeOk

/-! ## Concrete fixtures used by counterexamples and witnesses -/

/-- A signed-in non-admin user. -/
def cUser : User :=
  { id := "u1", email := some "u1@example.com", created_at := "2026-01-01",
    isAdmin := false }

/-- A synced-then-edited item the drain can mark. -/
def cItem : ItemWithStatus :=
  { id := "i1", user_id := "u1", name := "Chips", price_cents := 2550,
    sect := Sect.income, sub_section := none, item_date := "2026-01-28",
    created_at := "2026-01-28T00:00:00Z",
    updated_at := "2026-01-28T00:00:00Z",
    syncStatus := SyncStatus.pending, localId := none }

/-- A queued update operation targeting `cItem`, never yet retried. -/
def cOp : QueuedOperation :=
  { id := "op1", type := OpType.update, itemId := some "i1",
    data := some { name := some "Chips", price_cents := some 2550,
                   sect := none, sub_section := none, item_date := none },
    timestamp := 0, retryCount := 0 }

/-- Operation `cOp` after three recorded failures. -/
def cOp3 : QueuedOperation :=
  { cOp with retryCount := 3 }

/-- A subscription-effect state with the polling interval installed. -/
def pollingOnState : RealtimeSyncState :=
  { realtimeAvailable := true, pollingIntervalMs := some POLLING_INTERVAL_MS }

/-- A subscription-effect state with realtime marked unavailable and no
polling yet. -/
def realtimeDownState : RealtimeSyncState :=
  { realtimeAvailable := false, pollingIntervalMs := none }

/-! ### List helper lemmas -/

/-- Mapping an id-conditional rewrite across a list commutes with lookup by
that id, provided the rewrite keeps the id on entries that match. -/
theorem findById_map_cond (i : String) (g : ItemWithStatus → ItemWithStatus)
    (hg : ∀ it : ItemWithStatus, it.id = i → (g it).id = i)
    (l : List ItemWithStatus) :
    findById (l.map (fun it => if it.id == i then g it else it)) i
      = (findById l i).map g := by
  induction l with
  | nil => rfl
  | cons a t ih =>
      by_cases ha : a.id = i
      · rw [List.map_cons, if_pos (by simpa using ha)]
        rw [findById, List.find?_cons_of_pos _ (by simpa using hg a ha),
          findById, List.find?_cons_of_pos _ (by simpa using ha)]
        rfl
      · rw [List.map_cons, if_neg (by simpa using ha)]
        rw [findById, List.find?_cons_of_neg _ (by simp [ha]),
          findById, List.find?_cons_of_neg _ (by simp [ha])]
        exact ih

theorem findById_isSome_of_any (l : List ItemWithStatus) (i : String)
    (h : l.any (fun it => it.id == i) = true) :
    ∃ x, findById l i = some x := by
  induction l with
  | nil => simp at h
  | cons a t ih =>
      by_cases ha : a.id = i
      · exact ⟨a, by
          rw [findById, List.find?_cons_of_pos _ (by simpa using ha)]⟩
      · have ht : t.any (fun it => it.id == i) = true := by
          simpa [ha] using h
        obtain ⟨x, hx⟩ := ih ht
        refine ⟨x, ?_⟩
        rw [findById, List.find?_cons_of_neg _ (by simp [ha])]
        exact hx

/-! ## Claim theorems C3 and C6 -/

/-- C3: for every input and an authenticated user, `addItem` prepends an
entry to the in-memory list before any network response is observed; that
entry carries `syncStatus = pending` and its `price_cents` equals the input
`priceCents` exactly (no rounding or conversion). -/
theorem addItem_optimistic_pending_exact_price (u : User) (name : String)
    (priceCents : Int) (sect : Sect) (itemDate : String)
    (subSection : Option String) (localId nowIso : String)
    (items : List ItemWithStatus) :
    addItemOptimistic (some u) name priceCents sect itemDate subSection
        localId nowIso items
      = mkOptimisticItem u name priceCents sect itemDate subSection localId
          nowIso :: items
    ∧ (mkOptimisticItem u name priceCents sect itemDate subSection localId
        nowIso).syncStatus = SyncStatus.pending
    ∧ (mkOptimisticItem u name priceCents sect itemDate subSection localId
        nowIso).price_cents = priceCents := by
  refine ⟨rfl, rfl, rfl⟩

/-- C6: applying a realtime INSERT whose id is already in the list updates
that entry in place (server record marked synced), leaves the length
unchanged and every other entry untouched; if the id is absent the server
record is prepended. -/
theorem realtimeInsert_idempotent_upsert (n : Item)
    (prev : List ItemWithStatus) :
    (prev.any (fun it => it.id == n.id) = true →
      (applyRealtimeInsert n prev).length = prev.length
      ∧ findById (applyRealtimeInsert n prev) n.id = some (serverSynced n)
      ∧ ∀ it ∈ prev, it.id ≠ n.id → it ∈ applyRealtimeInsert n prev)
    ∧ (prev.any (fun it => it.id == n.id) = false →
      applyRealtimeInsert n prev = serverSynced n :: prev) := by
  constructor
  · intro h
    have hres : applyRealtimeInsert n prev
        = prev.map (fun it => if it.id == n.id then serverSynced n else it) := by
      simp [applyRealtimeInsert, h]
    refine ⟨by simp [hres], ?_, ?_⟩
    · obtain ⟨x, hx⟩ := findById_isSome_of_any prev n.id h
      rw [hres, findById_map_cond n.id (fun _ => serverSynced n)
        (fun it _ => rfl) prev, hx]
      rfl
    · intro it hmem hne
      rw [hres]
      exact List.mem_map.mpr ⟨it, hmem, by simp [hne]⟩
  · intro h
    simp [applyRealtimeInsert, h]

theorem bootStep_not_loading (st : AuthState) (e : BootEvent)
    (h : st.isLoading = false) : (bootStep st e).isLoading = false := by
  cases e with
  | safetyFire => simp [bootStep, safetyFireStep, h]
  | authEvent ev session adminOutcome =>
      cases ev <;> cases session <;> cases adminOutcome <;>
        simp [bootStep, onAuthStateChange, unauthenticatedState, mapUser,
          withTimeout, h]

theorem foldl_bootStep_not_loading (l : List BootEvent) (st : AuthState)
    (h : st.isLoading = false) : (l.foldl bootStep st).isLoading = false := by
  induction l generalizing st with
  | nil => exact h
  | cons e t ih => exact ih _ (bootStep_not_loading st e h)

theorem safetyFire_not_loading (st : AuthState) :
    (bootStep st BootEvent.safetyFire).isLoading = false := by
  by_cases h : st.isLoading <;> simp [bootStep, safetyFireStep, h]

/-! ## Claim theorems C1, C5, C10 -/

/-- C1: the mount effect schedules the safety timer at
`LOADING_SAFETY_TIMEOUT_MS` (= 8000 ms); in every execution whose timed trace
contains that timer event — including the trace where every backend call
hangs and no auth event is ever delivered — the state reached by any time
`tMs ≥ LOADING_SAFETY_TIMEOUT_MS` has `isLoading = false`, and it stays false
under all later bootstrap events. -/
theorem bootstrap_isLoading_forced_false (tr : List (Nat × BootEvent))
    (tMs : Nat)
    (hsched : (LOADING_SAFETY_TIMEOUT_MS, BootEvent.safetyFire) ∈ tr)
    (hT : LOADING_SAFETY_TIMEOUT_MS ≤ tMs) :
    (runBoot (delivered tMs tr)).isLoading = false := by
  have hmem : BootEvent.safetyFire ∈ delivered tMs tr := by
    refine List.mem_map.mpr
      ⟨(LOADING_SAFETY_TIMEOUT_MS, BootEvent.safetyFire), ?_, rfl⟩
    exact List.mem_filter.mpr ⟨hsched, by simpa using hT⟩
  obtain ⟨l1, l2, hsplit⟩ := List.append_of_mem hmem
  rw [runBoot, hsplit, List.foldl_append, List.foldl_cons]
  exact foldl_bootStep_not_loading l2 _ (safetyFire_not_loading _)

theorem bootstrap_isLoading_forced_false_witness :
    (runBoot (delivered LOADING_SAFETY_TIMEOUT_MS
      [(LOADING_SAFETY_TIMEOUT_MS, BootEvent.safetyFire)])).isLoading
      = false :=
  bootstrap_isLoading_forced_false
    [(LOADING_SAFETY_TIMEOUT_MS, BootEvent.safetyFire)]
    LOADING_SAFETY_TIMEOUT_MS (by decide) (by decide)

/-- C5 counterexample: on `INITIAL_SESSION` with no session the handler does
NOT clear persisted credential remnants — `clearAuthStorage()` is called only
when the event is `SIGNED_OUT`. -/
theorem initialSession_noSession_does_not_clear_storage :
    (onAuthStateChange AuthChangeEvent.initialSession none none
      initialAuthState).clearedStorage = false := by
  rfl

/-- C5 (amended): on `SIGNED_OUT` the handler clears persisted credential
remnants and immediately sets the unauthenticated state with no further
network call; on `INITIAL_SESSION` with no session it sets the same state
immediately, also with no further network call, but does not clear storage. -/
theorem signOut_clears_and_resolves_immediately (prev : AuthState)
    (session : Option Session) (adminOutcome : Option Bool) :
    onAuthStateChange AuthChangeEvent.signedOut session adminOutcome prev
      = { state := unauthenticatedState, clearedStorage := true,
          ranAdminCheck := false }
    ∧ onAuthStateChange AuthChangeEvent.initialSession none adminOutcome prev
      = { state := unauthenticatedState, clearedStorage := false,
          ranAdminCheck := false } := by
  exact ⟨rfl, rfl⟩

/-- C10: `checkIfAdmin` is a total function of the backend outcome — it
returns `true` exactly when the query resolved with a row and no error; every
failure path (thrown exception, error result of any code, missing admins
relation, missing row) returns `false`, so no exception can propagate into
the authentication state machine. -/
theorem checkIfAdmin_total_failure_false (userId : String)
    (o : AdminQueryOutcome) :
    checkIfAdmin userId o = true
      ↔ ∃ row, o = AdminQueryOutcome.returned (some row) none := by
  cases o with
  | thrown e => simp [checkIfAdmin, ite_self]
  | returned data error =>
      cases error with
      | some e =>
          constructor
          · intro h
            exfalso
            revert h
            by_cases hc : (e.code != some "PGRST116" && isMissingAdminsRelation e) = true <;>
              simp [checkIfAdmin, hc, adminResult]
          · rintro ⟨row, hrow⟩
            cases hrow
      | none =>
          cases data with
          | none => simp [checkIfAdmin, adminResult]
          | some row => simp [checkIfAdmin, adminResult]

/-! ### Realtime polling-fallback helper lemmas -/

theorem realtimeStep_poll_some (st : RealtimeSyncState) (e : RealtimeEvent)
    (h : st.pollingIntervalMs = some POLLING_INTERVAL_MS) :
    (realtimeStep st e).pollingIntervalMs = some POLLING_INTERVAL_MS := by
  cases e with
  | statusSubscribed => simpa [realtimeStep, setRealtimeStatus] using h
  | statusChannelError => simpa [realtimeStep, setRealtimeStatus] using h
  | statusTimedOut => simpa [realtimeStep, setRealtimeStatus] using h
  | subscribeError => simpa [realtimeStep, setRealtimeStatus] using h
  | realtimeCheckFire =>
      by_cases hc : st.realtimeAvailable <;> simp [realtimeStep, hc, h]

theorem runRealtime_poll_some (evs : List RealtimeEvent)
    (st : RealtimeSyncState)
    (h : st.pollingIntervalMs = some POLLING_INTERVAL_MS) :
    (runRealtime st evs).pollingIntervalMs = some POLLING_INTERVAL_MS := by
  induction evs generalizing st with
  | nil => exact h
  | cons e t ih => exact ih _ (realtimeStep_poll_some st e h)

theorem realtimeStep_poll_inv (st : RealtimeSyncState) (e : RealtimeEvent)
    (h : st.pollingIntervalMs = none
      ∨ st.pollingIntervalMs = some POLLING_INTERVAL_MS) :
    (realtimeStep st e).pollingIntervalMs = none
      ∨ (realtimeStep st e).pollingIntervalMs = some POLLING_INTERVAL_MS := by
  cases e with
  | statusSubscribed => simpa [realtimeStep, setRealtimeStatus] using h
  | statusChannelError => simpa [realtimeStep, setRealtimeStatus] using h
  | statusTimedOut => simpa [realtimeStep, setRealtimeStatus] using h
  | subscribeError => simpa [realtimeStep, setRealtimeStatus] using h
  | realtimeCheckFire =>
      by_cases hc : st.realtimeAvailable
      · simpa [realtimeStep, hc] using h
      · simp [realtimeStep, hc]

theorem runRealtime_poll_inv (evs : List RealtimeEvent)
    (st : RealtimeSyncState)
    (h : st.pollingIntervalMs = none
      ∨ st.pollingIntervalMs = some POLLING_INTERVAL_MS) :
    (runRealtime st evs).pollingIntervalMs = none
      ∨ (runRealtime st evs).pollingIntervalMs = some POLLING_INTERVAL_MS := by
  induction evs generalizing st with
  | nil => exact h
  | cons e t ih => exact ih _ (realtimeStep_poll_inv st e h)

/-! ## Claim theorems C4, C8, C9 -/

/-- C4 counterexample: with the OS reporting online but the most recent probe
failed, `isOnline()` returns `true` while the spec's conjunction is `false` —
the code returns `navigator.onLine` alone and consults no probe. -/
theorem isOnline_counterexample :
    networkStatus_isOnline true ≠ specEffectiveOnline true false := by
  decide

/-- C4 (amended): `networkStatus.isOnline()` returns exactly the OS-reported
signal (`navigator.onLine`); it coincides with the spec's
OS-signal-AND-last-probe conjunction only when the OS signal is off or the
probe succeeded. -/
theorem isOnline_os_signal_only (os probe : Bool) :
    networkStatus_isOnline os = os
    ∧ (networkStatus_isOnline os = specEffectiveOnline os probe
        ↔ (os = true → probe = true)) := by
  cases os <;> cases probe <;>
    simp [networkStatus_isOnline, specEffectiveOnline]

theorem isOnline_os_signal_only_witness :
    networkStatus_isOnline true = true
    ∧ (networkStatus_isOnline true = specEffectiveOnline true true
        ↔ (true = true → true = true)) :=
  isOnline_os_signal_only true true

/-- C8 counterexample: after the channel times out, the 5-second check starts
polling, and a subsequent `SUBSCRIBED` status does NOT stop it (the interval
stays installed, against the claim); conversely an error/timed-out status
arriving after a check that found realtime healthy starts no polling at
all. -/
theorem pollingFallback_counterexample :
    (runRealtime initialRealtimeState
      [RealtimeEvent.statusTimedOut, RealtimeEvent.realtimeCheckFire,
       RealtimeEvent.statusSubscribed]).pollingIntervalMs
      = some POLLING_INTERVAL_MS
    ∧ (runRealtime initialRealtimeState
      [RealtimeEvent.realtimeCheckFire,
       RealtimeEvent.statusTimedOut]).pollingIntervalMs = none :=
  ⟨rfl, rfl⟩

/-- C8 (amended): polling (at the fixed 45 s interval) starts exactly when
the one-shot 5-second check finds the realtime-availability flag false;
status callbacks only set that flag (error/timed-out → false, `SUBSCRIBED` →
true) and never start polling themselves; and once installed the polling
interval persists through every later event — including a recovering
`SUBSCRIBED` — until the effect is torn down. -/
theorem pollingFallback_behavior (st : RealtimeSyncState)
    (evs : List RealtimeEvent) :
    (st.pollingIntervalMs = some POLLING_INTERVAL_MS →
      (runRealtime st evs).pollingIntervalMs = some POLLING_INTERVAL_MS)
    ∧ (st.realtimeAvailable = false →
      (realtimeStep st RealtimeEvent.realtimeCheckFire).pollingIntervalMs
        = some POLLING_INTERVAL_MS)
    ∧ (st.realtimeAvailable = true →
      realtimeStep st RealtimeEvent.realtimeCheckFire = st)
    ∧ (∀ e, e ≠ RealtimeEvent.realtimeCheckFire →
      (realtimeStep st e).pollingIntervalMs = st.pollingIntervalMs)
    ∧ (realtimeStep st RealtimeEvent.statusSubscribed).realtimeAvailable
        = true
    ∧ ((runRealtime initialRealtimeState evs).pollingIntervalMs = none
        ∨ (runRealtime initialRealtimeState evs).pollingIntervalMs
          = some POLLING_INTERVAL_MS) := by
  refine ⟨fun h => runRealtime_poll_some evs st h, ?_, ?_, ?_, rfl, ?_⟩
  · intro h
    simp [realtimeStep, h]
  · intro h
    simp [realtimeStep, h]
  · intro e he
    cases e <;> simp_all [realtimeStep, setRealtimeStatus]
  · exact runRealtime_poll_inv evs initialRealtimeState (Or.inl rfl)

theorem pollingFallback_behavior_witness :
    (runRealtime pollingOnState
      [RealtimeEvent.statusSubscribed]).pollingIntervalMs
      = some POLLING_INTERVAL_MS
    ∧ (realtimeStep realtimeDownState
        RealtimeEvent.realtimeCheckFire).pollingIntervalMs
      = some POLLING_INTERVAL_MS :=
  ⟨(pollingFallback_behavior pollingOnState
      [RealtimeEvent.statusSubscribed]).1 rfl,
   (pollingFallback_behavior realtimeDownState []).2.1 rfl⟩

/-- C9: replaying a queued insert backfills every absent or falsy payload
field with a fixed default — empty name, `price_cents` 0, section `income`,
`sub_section` null, today's date — so the insert row is always fully
populated regardless of the payload. -/
theorem insertReplay_defaults (userId todayIso : String)
    (data : Option PartialItem) :
    (data = none →
      insertRowFromOp userId todayIso data
        = { user_id := userId, name := "", price_cents := 0,
            sect := Sect.income, sub_section := none,
            item_date := todayIso })
    ∧ (data.bind (fun d => d.name) = none
        ∨ data.bind (fun d => d.name) = some "" →
        (insertRowFromOp userId todayIso data).name = "")
    ∧ (data.bind (fun d => d.price_cents) = none
        ∨ data.bind (fun d => d.price_cents) = some 0 →
        (insertRowFromOp userId todayIso data).price_cents = 0)
    ∧ (data.bind (fun d => d.sect) = none →
        (insertRowFromOp userId todayIso data).sect = Sect.income)
    ∧ (data.bind (fun d => d.sub_section) = none
        ∨ data.bind (fun d => d.sub_section) = some none
        ∨ data.bind (fun d => d.sub_section) = some (some "") →
        (insertRowFromOp userId todayIso data).sub_section = none)
    ∧ (data.bind (fun d => d.item_date) = none
        ∨ data.bind (fun d => d.item_date) = some "" →
        (insertRowFromOp userId todayIso data).item_date = todayIso) := by
  refine ⟨?_, ?_, ?_, ?_, ?_, ?_⟩
  · rintro rfl
    rfl
  · rintro (h | h) <;> simp [insertRowFromOp, jsOrString, h]
  · rintro (h | h) <;> simp [insertRowFromOp, jsOrInt, h]
  · intro h
    simp [insertRowFromOp, jsOrSect, h]
  · rintro (h | h | h) <;> simp [insertRowFromOp, jsSubSection, h]
  · rintro (h | h) <;> simp [insertRowFromOp, jsOrString, h]

theorem insertReplay_defaults_witness :
    insertRowFromOp "u1" "2026-01-28" none
      = { user_id := "u1", name := "", price_cents := 0, sect := Sect.income,
          sub_section := none, item_date := "2026-01-28" } :=
  (insertReplay_defaults "u1" "2026-01-28" none).1 rfl

/-! ### Conditional-map helper lemmas for updateItem -/

theorem condMap_condMap (i : String) (f g : ItemWithStatus → ItemWithStatus)
    (hf : ∀ it : ItemWithStatus, it.id = i → (f it).id = i)
    (l : List ItemWithStatus) :
    (l.map (fun it => if it.id == i then f it else it)).map
        (fun it => if it.id == i then g it else it)
      = l.map (fun it => if it.id == i then g (f it) else it) := by
  rw [List.map_map]
  refine List.map_congr_left ?_
  intro a _
  by_cases ha : a.id = i
  · simp [Function.comp, ha, hf a ha]
  · simp [Function.comp, ha]

theorem condMap_self (i : String) (v : ItemWithStatus)
    (l : List ItemWithStatus) (h : ∀ it ∈ l, it.id = i → it = v) :
    l.map (fun it => if it.id == i then v else it) = l := by
  have hpt : ∀ a ∈ l, (fun it => if it.id == i then v else it) a = id a := by
    intro a ha
    by_cases h2 : a.id = i
    · have hb : (a.id == i) = true := by simpa using h2
      simp only [hb, if_true, id_eq]
      exact (h a ha h2).symm
    · have hb : (a.id == i) = false := by simp [h2]
      simp [hb]
  rw [List.map_congr_left hpt, List.map_id]

/-! ## Claim theorem C7 -/

/-- C7: `updateItem` captures the pre-mutation record, applies the change
optimistically with `syncStatus = pending` (visible before any network
response), and then — online — on remote success marks the entry synced with
the queue untouched and no error surfaced, while on remote failure it
restores the list to the captured pre-mutation state (when ids are unique),
surfaces "Failed to update item.", and still creates no queue entry. -/
theorem updateItem_optimistic_sync_rollback (u : User) (id name : String)
    (priceCents : Int) (online remoteOk : Bool) (freshOpId : String)
    (nowMs : Int) (items : List ItemWithStatus)
    (queue : List QueuedOperation) (errorMsg0 : Option String)
    (orig : ItemWithStatus) (r : UpdateOutcome)
    (hfind : items.find? (fun it => it.id == id) = some orig)
    (hr : updateItemRun (some u) id name priceCents online remoteOk freshOpId
      nowMs items queue errorMsg0 = r) :
    findById r.optimisticItems id
      = some { orig with
               name := name
               price_cents := priceCents
               syncStatus := SyncStatus.pending }
    ∧ (online = true → remoteOk = true →
        findById r.items id
          = some { orig with
                   name := name
                   price_cents := priceCents
                   syncStatus := SyncStatus.synced }
        ∧ r.queue = queue ∧ r.errorMsg = errorMsg0)
    ∧ (online = true → remoteOk = false →
        ((∀ it ∈ items, it.id = id → it = orig) → r.items = items)
        ∧ r.queue = queue
        ∧ r.errorMsg = some "Failed to update item.") := by
  subst hr
  have hpend : findById (items.map (fun it =>
      if it.id == id then
        { it with
          name := name
          price_cents := priceCents
          syncStatus := SyncStatus.pending }
      else it)) id
      = some { orig with
               name := name
               price_cents := priceCents
               syncStatus := SyncStatus.pending } := by
    rw [findById_map_cond id
      (fun it => { it with
                   name := name
                   price_cents := priceCents
                   syncStatus := SyncStatus.pending })
      (fun it hit => hit) items]
    rw [show findById items id = some orig from hfind]
    rfl
  cases online with
  | false =>
      refine ⟨?_, fun h => absurd h (by simp), fun h => absurd h (by simp)⟩
      simp only [updateItemRun, hfind]
      exact hpend
  | true =>
      cases remoteOk with
      | true =>
          refine ⟨?_, ?_, fun _ h => absurd h (by simp)⟩
          · simp only [updateItemRun, hfind]
            exact hpend
          · intro _ _
            simp only [updateItemRun, hfind]
            refine ⟨?_, by trivial, by trivial⟩
            rw [findById_map_cond id
              (fun it => { it with syncStatus := SyncStatus.synced })
              (fun it hit => hit), hpend]
            rfl
      | false =>
          refine ⟨?_, fun _ h => absurd h (by simp), ?_⟩
          · simp only [updateItemRun, hfind]
            exact hpend
          · intro _ _
            simp only [updateItemRun, hfind]
            refine ⟨?_, by trivial, by trivial⟩
            intro huniq
            rw [condMap_condMap id
              (fun it => { it with
                           name := name
                           price_cents := priceCents
                           syncStatus := SyncStatus.pending })
              (fun _ => orig) (fun it hit => hit) items]
            exact condMap_self id orig items huniq

theorem updateItem_optimistic_sync_rollback_witness :
    findById (updateItemRun (some cUser) "i1" "Peanuts" 500 true true "op9" 0
      [cItem] [] none).optimisticItems "i1"
      = some { cItem with
               name := "Peanuts"
               price_cents := 500
               syncStatus := SyncStatus.pending }
    ∧ (true = true → true = true →
        findById (updateItemRun (some cUser) "i1" "Peanuts" 500 true true
            "op9" 0 [cItem] [] none).items "i1"
          = some { cItem with
                   name := "Peanuts"
                   price_cents := 500
                   syncStatus := SyncStatus.synced }
        ∧ (updateItemRun (some cUser) "i1" "Peanuts" 500 true true "op9" 0
            [cItem] [] none).queue = []
        ∧ (updateItemRun (some cUser) "i1" "Peanuts" 500 true true "op9" 0
            [cItem] [] none).errorMsg = none)
    ∧ (true = true → true = false →
        ((∀ it ∈ [cItem], it.id = "i1" → it = cItem) →
          (updateItemRun (some cUser) "i1" "Peanuts" 500 true true "op9" 0
            [cItem] [] none).items = [cItem])
        ∧ (updateItemRun (some cUser) "i1" "Peanuts" 500 true true "op9" 0
            [cItem] [] none).queue = []
        ∧ (updateItemRun (some cUser) "i1" "Peanuts" 500 true true "op9" 0
            [cItem] [] none).errorMsg = some "Failed to update item.") :=
  updateItem_optimistic_sync_rollback cUser "i1" "Peanuts" 500 true true
    "op9" 0 [cItem] [] none cItem _ (by rfl) rfl

/-! ### Queue-drain helper lemmas -/

theorem mem_incrementRetry_of_ne (queue : List QueuedOperation)
    (opId : String) (q : QueuedOperation) (hq : q ∈ queue)
    (hne : q.id ≠ opId) : q ∈ incrementRetry queue opId :=
  List.mem_map.mpr ⟨q, hq, by simp [incrementRetry, hne]⟩

theorem mem_incrementRetry_self (queue : List QueuedOperation)
    (q : QueuedOperation) (hq : q ∈ queue) :
    { q with retryCount := q.retryCount + 1 } ∈ incrementRetry queue q.id :=
  List.mem_map.mpr ⟨q, hq, by simp⟩

theorem drainStep_queue_dequeue (ok : String → Bool) (st : SyncState)
    (p : QueuedOperation) (hok : ok p.id = true) :
    (drainStep ok st p).queue = dequeue st.queue p.id := by
  simp [drainStep, hok]

theorem drainStep_queue_increment (ok : String → Bool) (st : SyncState)
    (p : QueuedOperation) (hok : ok p.id = false) :
    (drainStep ok st p).queue = incrementRetry st.queue p.id := by
  by_cases hr : 3 ≤ p.retryCount <;> simp [drainStep, hok, hr]

theorem drainStep_preserves_mem (ok : String → Bool) (st : SyncState)
    (p q : QueuedOperation) (hq : q ∈ st.queue) (hne : p.id ≠ q.id) :
    q ∈ (drainStep ok st p).queue := by
  by_cases hok : ok p.id
  · rw [drainStep_queue_dequeue ok st p hok]
    exact List.mem_filter.mpr ⟨hq, by simpa using Ne.symm hne⟩
  · rw [drainStep_queue_increment ok st p (by simpa using hok)]
    exact mem_incrementRetry_of_ne st.queue p.id q hq (Ne.symm hne)

theorem foldl_drain_preserves_mem (ok : String → Bool)
    (l : List QueuedOperation) (st : SyncState) (q : QueuedOperation)
    (hq : q ∈ st.queue) (hl : ∀ p ∈ l, p.id ≠ q.id) :
    q ∈ (l.foldl (drainStep ok) st).queue := by
  induction l generalizing st with
  | nil => exact hq
  | cons p t ih =>
      exact ih _ (drainStep_preserves_mem ok st p q hq
        (hl p (List.mem_cons_self p t)))
        (fun p2 hp2 => hl p2 (List.mem_cons_of_mem p hp2))

theorem drainStep_absence (ok : String → Bool) (st : SyncState)
    (p : QueuedOperation) (i : String)
    (h : ∀ q ∈ st.queue, q.id ≠ i) :
    ∀ q ∈ (drainStep ok st p).queue, q.id ≠ i := by
  intro q hq
  by_cases hok : ok p.id
  · rw [drainStep_queue_dequeue ok st p hok] at hq
    exact h q (List.mem_of_mem_filter hq)
  · rw [drainStep_queue_increment ok st p (by simpa using hok)] at hq
    obtain ⟨q0, hq0, heq⟩ := List.mem_map.mp hq
    have hid : q.id = q0.id := by
      by_cases hc : (q0.id == p.id) = true <;> simp [hc] at heq <;>
        simp [← heq]
    rw [hid]
    exact h q0 hq0

theorem foldl_drain_absence (ok : String → Bool)
    (l : List QueuedOperation) (st : SyncState) (i : String)
    (h : ∀ q ∈ st.queue, q.id ≠ i) :
    ∀ q ∈ (l.foldl (drainStep ok) st).queue, q.id ≠ i := by
  induction l generalizing st with
  | nil => exact h
  | cons p t ih => exact ih _ (drainStep_absence ok st p i h)

theorem markErrorFor_preserves_variant (op2 : QueuedOperation)
    (it it2 : ItemWithStatus)
    (h : it2 = it ∨ it2 = { it with syncStatus := SyncStatus.error }) :
    (if opMatchesItem op2 it2 then { it2 with syncStatus := SyncStatus.error }
      else it2) = it
    ∨ (if opMatchesItem op2 it2 then
        { it2 with syncStatus := SyncStatus.error } else it2)
      = { it with syncStatus := SyncStatus.error } := by
  rcases h with rfl | rfl
  · by_cases hm : opMatchesItem op2 it2
    · exact Or.inr (by simp [hm])
    · exact Or.inl (by simp [hm])
  · by_cases hm : opMatchesItem op2 ({ it with syncStatus := SyncStatus.error })
    · exact Or.inr (by simp [hm])
    · exact Or.inr (by simp [hm])

theorem markErrorFor_exists_variant (op2 : QueuedOperation)
    (it : ItemWithStatus) (items : List ItemWithStatus)
    (h : ∃ it2 ∈ items,
        it2 = it ∨ it2 = { it with syncStatus := SyncStatus.error }) :
    ∃ it3 ∈ markErrorFor op2 items,
      it3 = it ∨ it3 = { it with syncStatus := SyncStatus.error } := by
  obtain ⟨it2, hmem, hv⟩ := h
  exact ⟨_, List.mem_map.mpr ⟨it2, hmem, rfl⟩,
    markErrorFor_preserves_variant op2 it it2 hv⟩

theorem drainStep_items_cases (ok : String → Bool) (st : SyncState)
    (p : QueuedOperation) :
    (drainStep ok st p).items = st.items
      ∨ (drainStep ok st p).items = markErrorFor p st.items := by
  by_cases hok : ok p.id
  · exact Or.inl (by simp [drainStep, hok])
  · by_cases hr : 3 ≤ p.retryCount
    · exact Or.inr (by simp [drainStep, hok, hr])
    · exact Or.inl (by simp [drainStep, hok, hr])

theorem drainStep_exists_variant (ok : String → Bool) (st : SyncState)
    (p : QueuedOperation) (it : ItemWithStatus)
    (h : ∃ it2 ∈ st.items,
        it2 = it ∨ it2 = { it with syncStatus := SyncStatus.error }) :
    ∃ it3 ∈ (drainStep ok st p).items,
      it3 = it ∨ it3 = { it with syncStatus := SyncStatus.error } := by
  rcases drainStep_items_cases ok st p with hc | hc <;> rw [hc]
  · exact h
  · exact markErrorFor_exists_variant p it st.items h

theorem foldl_drain_exists_variant (ok : String → Bool)
    (l : List QueuedOperation) (st : SyncState) (it : ItemWithStatus)
    (h : ∃ it2 ∈ st.items,
        it2 = it ∨ it2 = { it with syncStatus := SyncStatus.error }) :
    ∃ it3 ∈ (l.foldl (drainStep ok) st).items,
      it3 = it ∨ it3 = { it with syncStatus := SyncStatus.error } := by
  induction l generalizing st with
  | nil => exact h
  | cons p t ih => exact ih _ (drainStep_exists_variant ok st p it h)

theorem markErrorFor_creates (op : QueuedOperation) (it : ItemWithStatus)
    (items : List ItemWithStatus)
    (h : ∃ it2 ∈ items,
        it2 = it ∨ it2 = { it with syncStatus := SyncStatus.error })
    (hm : opMatchesItem op it = true) :
    ∃ it3 ∈ markErrorFor op items,
      it3 = { it with syncStatus := SyncStatus.error } := by
  obtain ⟨it2, hmem, hv⟩ := h
  refine ⟨_, List.mem_map.mpr ⟨it2, hmem, rfl⟩, ?_⟩
  rcases hv with h2 | h2 <;> subst h2
  · simp [hm]
  · have hm2 : opMatchesItem op
        ({ it with syncStatus := SyncStatus.error }) = true := hm
    simp [hm2]

theorem markErrorFor_preserves_error (op2 : QueuedOperation)
    (it : ItemWithStatus) (items : List ItemWithStatus)
    (h : ∃ it2 ∈ items, it2 = { it with syncStatus := SyncStatus.error }) :
    ∃ it3 ∈ markErrorFor op2 items,
      it3 = { it with syncStatus := SyncStatus.error } := by
  obtain ⟨it2, hmem, heq⟩ := h
  refine ⟨_, List.mem_map.mpr ⟨it2, hmem, rfl⟩, ?_⟩
  subst heq
  by_cases hm : opMatchesItem op2
      ({ it with syncStatus := SyncStatus.error }) <;> simp [hm]

theorem drainStep_preserves_error (ok : String → Bool) (st : SyncState)
    (p : QueuedOperation) (it : ItemWithStatus)
    (h : ∃ it2 ∈ st.items,
        it2 = { it with syncStatus := SyncStatus.error }) :
    ∃ it3 ∈ (drainStep ok st p).items,
      it3 = { it with syncStatus := SyncStatus.error } := by
  rcases drainStep_items_cases ok st p with hc | hc <;> rw [hc]
  · exact h
  · exact markErrorFor_preserves_error p it st.items h

theorem foldl_drain_preserves_error (ok : String → Bool)
    (l : List QueuedOperation) (st : SyncState) (it : ItemWithStatus)
    (h : ∃ it2 ∈ st.items,
        it2 = { it with syncStatus := SyncStatus.error }) :
    ∃ it3 ∈ (l.foldl (drainStep ok) st).items,
      it3 = { it with syncStatus := SyncStatus.error } := by
  induction l generalizing st with
  | nil => exact h
  | cons p t ih => exact ih _ (drainStep_preserves_error ok st p it h)

/-! ## Claim theorems C2 -/

/-- C2 counterexample: a queued operation that fails in three successive
drains (three failures in total) is still queued with `retryCount = 3`, but
its item's status is still `pending`, NOT `error` — the mark only happens on
a later failure whose snapshot `retryCount` is already ≥ 3. -/
theorem queueDrain_three_failures_not_error :
    (syncOfflineQueue (some cUser) true (fun _ => false)
        (syncOfflineQueue (some cUser) true (fun _ => false)
          (syncOfflineQueue (some cUser) true (fun _ => false)
            { queue := [cOp], items := [cItem] }))).items.map
        (fun it => it.syncStatus) = [SyncStatus.pending]
    ∧ (syncOfflineQueue (some cUser) true (fun _ => false)
        (syncOfflineQueue (some cUser) true (fun _ => false)
          (syncOfflineQueue (some cUser) true (fun _ => false)
            { queue := [cOp], items := [cItem] }))).queue.map
        (fun op => op.retryCount) = [3] :=
  ⟨rfl, rfl⟩

/-- C2 (amended): during a drain, a failing operation is never dequeued —
it stays in the persisted queue with its retry counter incremented — and the
drain continues, so every operation of the snapshot whose replay succeeds is
dequeued even when other operations fail; the corresponding item is marked
`error` on a failed replay whose snapshot `retryCount` is already ≥ 3 (its
fourth failure), not after exactly 3 failures. -/
theorem queueDrain_failure_behavior (u : User) (ok : String → Bool)
    (st : SyncState) (op : QueuedOperation)
    (hmem : op ∈ st.queue) (hfail : ok op.id = false)
    (hnodup : (st.queue.map (fun q => q.id)).Nodup) :
    (∃ op2 ∈ (syncOfflineQueue (some u) true ok st).queue,
        op2.id = op.id ∧ op2.retryCount = op.retryCount + 1)
    ∧ (3 ≤ op.retryCount →
        ∀ it ∈ st.items, opMatchesItem op it = true →
          ∃ it2 ∈ (syncOfflineQueue (some u) true ok st).items,
            it2.id = it.id ∧ it2.syncStatus = SyncStatus.error)
    ∧ (∀ opS ∈ st.queue, ok opS.id = true →
        ∀ op2 ∈ (syncOfflineQueue (some u) true ok st).queue,
          op2.id ≠ opS.id) := by
  obtain ⟨l1, l2, hsplit⟩ := List.append_of_mem hmem
  have hmapped : (l1.map (fun q => q.id)
      ++ (op.id :: l2.map (fun q => q.id))).Nodup := by
    rw [hsplit] at hnodup
    simpa using hnodup
  obtain ⟨hn1, hn2, hdisj⟩ := List.nodup_append.mp hmapped
  have hl1 : ∀ p ∈ l1, p.id ≠ op.id := by
    intro p hp heq
    exact hdisj (List.mem_map_of_mem (fun q => q.id) hp)
      (by rw [heq]; exact List.mem_cons_self _ _)
  have hl2 : ∀ p ∈ l2, p.id ≠ op.id := by
    intro p hp heq
    exact (List.nodup_cons.mp hn2).1
      (by rw [← heq]; exact List.mem_map_of_mem (fun q => q.id) hp)
  have hrun : syncOfflineQueue (some u) true ok st
      = st.queue.foldl (drainStep ok) st := rfl
  refine ⟨?_, ?_, ?_⟩
  · rw [hrun, hsplit, List.foldl_append, List.foldl_cons]
    have hop1 : op ∈ (l1.foldl (drainStep ok) st).queue :=
      foldl_drain_preserves_mem ok l1 st op hmem hl1
    have hop2 : { op with retryCount := op.retryCount + 1 }
        ∈ (drainStep ok (l1.foldl (drainStep ok) st) op).queue := by
      rw [drainStep_queue_increment ok _ op hfail]
      exact mem_incrementRetry_self _ op hop1
    exact ⟨{ op with retryCount := op.retryCount + 1 },
      foldl_drain_preserves_mem ok l2 _ _ hop2 hl2, rfl, rfl⟩
  · intro hretry it hit hmatch
    rw [hrun, hsplit, List.foldl_append, List.foldl_cons]
    have h1 : ∃ it2 ∈ (l1.foldl (drainStep ok) st).items,
        it2 = it ∨ it2 = { it with syncStatus := SyncStatus.error } :=
      foldl_drain_exists_variant ok l1 st it ⟨it, hit, Or.inl rfl⟩
    have hstepItems : (drainStep ok (l1.foldl (drainStep ok) st) op).items
        = markErrorFor op (l1.foldl (drainStep ok) st).items := by
      simp [drainStep, hfail, hretry]
    have h2 : ∃ it3 ∈ (drainStep ok (l1.foldl (drainStep ok) st) op).items,
        it3 = { it with syncStatus := SyncStatus.error } := by
      rw [hstepItems]
      exact markErrorFor_creates op it _ h1 hmatch
    obtain ⟨it2, hm2, heq2⟩ :=
      foldl_drain_preserves_error ok l2 _ it h2
    exact ⟨it2, hm2, by rw [heq2], by rw [heq2]⟩
  · intro opS hmemS hokS
    obtain ⟨m1, m2, hs⟩ := List.append_of_mem hmemS
    rw [hrun, hs, List.foldl_append, List.foldl_cons]
    have habs : ∀ q ∈ (drainStep ok (m1.foldl (drainStep ok) st) opS).queue,
        q.id ≠ opS.id := by
      intro q hq
      rw [drainStep_queue_dequeue ok _ opS hokS] at hq
      simpa using (List.mem_filter.mp hq).2
    exact foldl_drain_absence ok m2 _ opS.id habs

theorem queueDrain_failure_behavior_witness :
    (∃ op2 ∈ (syncOfflineQueue (some cUser) true (fun _ => false)
        { queue := [cOp3], items := [cItem] }).queue,
        op2.id = cOp3.id ∧ op2.retryCount = cOp3.retryCount + 1)
    ∧ (3 ≤ cOp3.retryCount →
        ∀ it ∈ [cItem], opMatchesItem cOp3 it = true →
          ∃ it2 ∈ (syncOfflineQueue (some cUser) true (fun _ => false)
              { queue := [cOp3], items := [cItem] }).items,
            it2.id = it.id ∧ it2.syncStatus = SyncStatus.error)
    ∧ (∀ opS ∈ [cOp3], (fun _ => false) opS.id = true →
        ∀ op2 ∈ (syncOfflineQueue (some cUser) true (fun _ => false)
            { queue := [cOp3], items := [cItem] }).queue,
          op2.id ≠ opS.id) :=
  queueDrain_failure_behavior cUser (fun _ => false)
    { queue := [cOp3], items := [cItem] } cOp3
    (List.mem_singleton.mpr rfl) rfl (by simp)

/-! ### Extra closed witnesses -/

theorem realtimeInsert_idempotent_upsert_witness :
    (applyRealtimeInsert cItem.toItem [cItem]).length = [cItem].length
    ∧ findById (applyRealtimeInsert cItem.toItem [cItem]) cItem.toItem.id
      = some (serverSynced cItem.toItem)
    ∧ ∀ it ∈ [cItem], it.id ≠ cItem.toItem.id →
        it ∈ applyRealtimeInsert cItem.toItem [cItem] :=
  (realtimeInsert_idempotent_upsert cItem.toItem [cItem]).1 rfl

theorem checkIfAdmin_total_failure_false_witness :
    checkIfAdmin "u1"
      (AdminQueryOutcome.returned (some { user_id := "u1" }) none) = true :=
  (checkIfAdmin_total_failure_false "u1"
    (AdminQueryOutcome.returned (some { user_id := "u1" }) none)).mpr
    ⟨{ user_id := "u1" }, rfl⟩

end Inventory
